import Mathlib

/-!
Shallow embedding of `src/e_commerce_management_system.py`.

Python objects are modelled functionally: the mutable world of `Product`
objects becomes a map `Products := ProductId → Product` threaded through
each operation; methods that mutate `self` return the updated value; a
`raise` becomes an explicit error value carried alongside the state that
was already mutated before the exception fired.  Python `int` is `ℤ`,
`float` prices are modelled as `ℚ` (the claims under study concern only
exact equalities and sign conditions, never rounding), and the Python
enums become inductive types with the same constructor names.
-/

namespace Ecomm

abbrev ProductId := Nat

/-- `OrderStatus` enum of the source. -/
inductive OrderStatus
  | PENDING
  | CONFIRMED
  | SHIPPED
  | DELIVERED
  | CANCELLED
  deriving DecidableEq, Repr

/-- `PaymentStatus` enum of the source. -/
inductive PaymentStatus
  | PENDING
  | COMPLETED
  | FAILED
  | REFUNDED
  deriving DecidableEq, Repr

/-- `PaymentMethod` enum of the source. -/
inductive PaymentMethod
  | CREDIT_CARD
  | DEBIT_CARD
  | NET_BANKING
  | WALLET
  deriving DecidableEq, Repr

/-- Python exceptions that the modelled code can raise. -/
inductive PyError
  | valueError
  | typeError
  deriving DecidableEq, Repr

/-- The stock/price state of one `Product` object (the fields the claims
touch: `_price` and `stock_quantity`). -/
structure Product where
  price : ℚ
  stock_quantity : ℤ
  deriving DecidableEq, Repr

/-- `Product.__init__`: `self.stock_quantity = 0`. -/
def Product.new (price : ℚ) : Product :=
  { price := price, stock_quantity := 0 }

/-- `Product.add_stock`: raises `ValueError` when `quantity < 0`, else
`self.stock_quantity += quantity`. `none` models the raise (state untouched,
since the raise precedes the assignment). -/
def Product.add_stock (p : Product) (quantity : ℤ) : Option Product :=
  if quantity < 0 then none
  else some { p with stock_quantity := p.stock_quantity + quantity }

/-- `Product.remove_stock`: `if quantity <= self.stock_quantity:
self.stock_quantity -= quantity; return True` else `return False`. -/
def Product.remove_stock (p : Product) (quantity : ℤ) : Bool × Product :=
  if quantity ≤ p.stock_quantity then
    (true, { p with stock_quantity := p.stock_quantity - quantity })
  else
    (false, p)

/-- The `price` property setter: raises `ValueError` on a negative value,
else assigns `self._price = value`. -/
def Product.set_price (p : Product) (value : ℚ) : Option Product :=
  if value < 0 then none else some { p with price := value }

/-- The world of product objects, indexed by identity. -/
abbrev Products := ProductId → Product

/-- In-place mutation of one product object, seen by every alias. -/
def setProd (ps : Products) (pid : ProductId) (p : Product) : Products :=
  fun i => if i = pid then p else ps i

/-- A `CartItem`: a reference to a (shared, mutable) product plus a
quantity. Orders alias the very same items after `create_order` copies the
cart list (a shallow `list.copy()`). -/
structure CartItem where
  product : ProductId
  quantity : ℤ
  deriving DecidableEq, Repr

/-- The two `ValueError` messages of the `CartItem.quantity` setter. -/
inductive QtyError
  | invalidQuantity
  | insufficientStock
  deriving DecidableEq, Repr

/-- The `CartItem.quantity` property setter: raises on a negative value,
raises when the value exceeds the product's current stock, else assigns. -/
def CartItem.set_quantity (ps : Products) (it : CartItem) (value : ℤ) :
    Except QtyError CartItem :=
  if value < 0 then Except.error QtyError.invalidQuantity
  else if (ps it.product).stock_quantity < value then
    Except.error QtyError.insufficientStock
  else
    Except.ok { it with quantity := value }

/-- `CartItem.subtotal`: `self.product.price * self.quantity` — reads the
product's LIVE price through the shared reference. -/
def CartItem.subtotal (ps : Products) (it : CartItem) : ℚ :=
  (ps it.product).price * it.quantity

/-- `Cart.update_quantity`: finds the first item whose product matches,
assigns through the quantity setter returning `some true`, catches the
`ValueError` returning `some false`; when no item matches the function
falls through and returns Python `None` (here `none`), cart unchanged. -/
def Cart.update_quantity (ps : Products) (items : List CartItem)
    (pid : ProductId) (quantity : ℤ) : Option Bool × List CartItem :=
  match items with
  | [] => (none, [])
  | it :: rest =>
    if it.product = pid then
      match it.set_quantity ps quantity with
      | Except.ok it2 => (some true, it2 :: rest)
      | Except.error _ => (some false, it :: rest)
    else
      let r := Cart.update_quantity ps rest pid quantity
      (r.1, it :: r.2)

/-- The `Order` object. `payment_status` is not set by `__init__`; the
source creates the attribute only on a successful payment, modelled as
`Option PaymentStatus` starting at `none`. The failed-payment branch
assigns a `PaymentStatus` INTO `payment_method` (Python is untyped), so
`payment_method` holds `PaymentMethod ⊕ PaymentStatus`. -/
structure Order where
  items : List CartItem
  status : OrderStatus
  payment_method : Option (PaymentMethod ⊕ PaymentStatus)
  payment_status : Option PaymentStatus
  shipping_cost : ℚ
  tracking_number : Option String
  deriving DecidableEq, Repr

/-- `Order.__init__` (fields the claims touch): status `PENDING`,
`payment_method = None`, `shipping_cost = 0.0`, `tracking_number = None`,
no `payment_status` attribute yet; `create_order` then assigns
`order.items = user.cart.items.copy()`. -/
def Order.new (items : List CartItem) : Order :=
  { items := items, status := OrderStatus.PENDING, payment_method := none,
    payment_status := none, shipping_cost := 0, tracking_number := none }

/-- `Order.subtotal`: sum of `item.subtotal` over the (aliased) items —
each subtotal reads the product's live price. -/
def Order.subtotal (ps : Products) (o : Order) : ℚ :=
  (o.items.map (CartItem.subtotal ps)).sum

/-- `Order.total`: `self.subtotal + self.shipping_cost`. -/
def Order.total (ps : Products) (o : Order) : ℚ :=
  o.subtotal ps + o.shipping_cost

/-- `Order.add_tracking_number`: assigns `self.tracking_number`, then
evaluates `OrderStatus()` — calling the enum class with no value raises
`TypeError` — so `self.status` is never assigned. The returned order is
the state visible after the exception propagates. -/
def Order.add_tracking_number (o : Order) (tracking : String) :
    Order × Option PyError :=
  ({ o with tracking_number := some tracking }, some PyError.typeError)

/-- The `for item in self.items: item.product.add_stock(item.quantity)`
loop of `cancel_order`. A negative quantity makes `add_stock` raise;
mutations already performed by earlier iterations stay. -/
def releaseItems (ps : Products) : List CartItem → Products × Option PyError
  | [] => (ps, none)
  | it :: rest =>
    match (ps it.product).add_stock it.quantity with
    | none => (ps, some PyError.valueError)
    | some p2 => releaseItems (setProd ps it.product p2) rest

/-- `Order.cancel_order`: when status is `PENDING` or `CONFIRMED`, sets
status to `CANCELLED`, adds each item's quantity back to its product and
returns `True`; otherwise returns `False` touching nothing. An exception
out of the loop is surfaced as `Except.error`. -/
def Order.cancel_order (ps : Products) (o : Order) :
    Products × Order × Except PyError Bool :=
  if o.status = OrderStatus.PENDING ∨ o.status = OrderStatus.CONFIRMED then
    let o2 : Order := { o with status := OrderStatus.CANCELLED }
    match releaseItems ps o.items with
    | (ps2, none) => (ps2, o2, Except.ok true)
    | (ps2, some e) => (ps2, o2, Except.error e)
  else
    (ps, o, Except.ok false)

/-- The `for item in order.items: item.product.remove_stock(item.quantity)`
loop of `create_order`; the boolean result of `remove_stock` is ignored by
the source. -/
def removeItemsStock (ps : Products) : List CartItem → Products
  | [] => ps
  | it :: rest =>
    removeItemsStock
      (setProd ps it.product ((ps it.product).remove_stock it.quantity).2) rest

/-- `EcommerceSystem.create_order`: returns `None` on an empty cart;
returns `None` if ANY cart line's quantity exceeds its product's stock
(this pre-check loop runs before any mutation); otherwise snapshots the
cart list into a new `PENDING` order, decrements stock per line and clears
the cart. Result: (product world, cart items after, order or `None`). -/
def EcommerceSystem.create_order (ps : Products) (cart : List CartItem) :
    Products × List CartItem × Option Order :=
  if cart.isEmpty then (ps, cart, none)
  else if cart.any (fun it =>
      decide ((ps it.product).stock_quantity < it.quantity)) then
    (ps, cart, none)
  else
    (removeItemsStock ps cart, [], some (Order.new cart))

/-- `payment_info` dict (the field the credit-card processor reads). -/
structure PaymentInfo where
  card_number : Option String
  deriving DecidableEq, Repr

/-- `CreditCardProcessor._validate_card_number`:
`re.match(r'^\d\x7b16\x7d$', card_number)` — exactly sixteen digits. -/
def validate_card_number (card_number : String) : Bool :=
  (card_number.data.length == 16) && card_number.data.all Char.isDigit

/-- `CreditCardProcessor.process_payment`: `False` when `card_number` is
missing or empty or fails validation, else `True`. -/
def CreditCardProcessor.process_payment (_amount : ℚ)
    (payment_info : PaymentInfo) : Bool :=
  match payment_info.card_number with
  | none => false
  | some c => !c.data.isEmpty && validate_card_number c

/-- `EcommerceSystem.process_payment`: only `CREDIT_CARD` has a registered
processor. On processor success: `payment_status = COMPLETED`,
`status = CONFIRMED`, `payment_method` = the method, return `True`. On
decline: `order.payment_method = PaymentStatus.FAILED` (sic — the status
enum is written into the method field, `payment_status` stays untouched),
return `False`. No order-status guard exists, and stock is never touched. -/
def EcommerceSystem.process_payment (ps : Products) (o : Order)
    (payment_method : PaymentMethod) (payment_info : PaymentInfo) :
    Products × Order × Bool :=
  match payment_method with
  | PaymentMethod.CREDIT_CARD =>
    if CreditCardProcessor.process_payment (o.total ps) payment_info then
      (ps, { o with payment_status := some PaymentStatus.COMPLETED,
                    status := OrderStatus.CONFIRMED,
                    payment_method := some (Sum.inl PaymentMethod.CREDIT_CARD) },
       true)
    else
      (ps, { o with payment_method := some (Sum.inr PaymentStatus.FAILED) },
       false)
  | _ => (ps, o, false)

/-- Quantity a cancel restores to product `pid`: the sum of the order's
line quantities recorded against that product. -/
def linesQty (items : List CartItem) (pid : ProductId) : ℤ :=
  ((items.filter fun it => it.product == pid).map CartItem.quantity).sum

/-! ## Helper lemmas -/

theorem remove_stock_keeps_nonneg (p : Product) (q : ℤ)
    (h : 0 ≤ p.stock_quantity) : 0 ≤ (p.remove_stock q).2.stock_quantity := by
  unfold Product.remove_stock
  split
  next hle =>
    show (0 : ℤ) ≤ p.stock_quantity - q
    omega
  next => exact h

theorem add_stock_keeps_nonneg (p p2 : Product) (q : ℤ)
    (h : 0 ≤ p.stock_quantity) (hs : p.add_stock q = some p2) :
    0 ≤ p2.stock_quantity := by
  unfold Product.add_stock at hs
  split at hs
  · exact absurd hs (by simp)
  next hq =>
    cases hs
    show (0 : ℤ) ≤ p.stock_quantity + q
    omega

theorem add_stock_nonneg_eq (p : Product) (q : ℤ) (hq : 0 ≤ q) :
    p.add_stock q
      = some { p with stock_quantity := p.stock_quantity + q } := by
  unfold Product.add_stock
  rw [if_neg (not_lt.mpr hq)]

theorem removeItemsStock_nonneg (items : List CartItem) (ps : Products)
    (h : ∀ i, 0 ≤ (ps i).stock_quantity) (pid : ProductId) :
    0 ≤ ((removeItemsStock ps items) pid).stock_quantity := by
  induction items generalizing ps with
  | nil => exact h pid
  | cons it rest ih =>
    apply ih
    intro i
    by_cases hc : i = it.product
    · subst hc
      simpa [setProd] using
        remove_stock_keeps_nonneg _ it.quantity (h it.product)
    · simpa [setProd, hc] using h i

theorem releaseItems_nonneg (items : List CartItem) (ps : Products)
    (h : ∀ i, 0 ≤ (ps i).stock_quantity) (pid : ProductId) :
    0 ≤ (((releaseItems ps items).1) pid).stock_quantity := by
  induction items generalizing ps with
  | nil => exact h pid
  | cons it rest ih =>
    unfold releaseItems
    cases hadd : (ps it.product).add_stock it.quantity with
    | none => exact h pid
    | some p2 =>
      apply ih
      intro i
      by_cases hc : i = it.product
      · subst hc
        simpa [setProd] using
          add_stock_keeps_nonneg (ps it.product) p2 it.quantity
            (h it.product) hadd
      · simpa [setProd, hc] using h i

theorem linesQty_cons (it : CartItem) (rest : List CartItem)
    (pid : ProductId) :
    linesQty (it :: rest) pid
      = (if it.product = pid then it.quantity else 0) + linesQty rest pid := by
  unfold linesQty
  rw [List.filter_cons]
  by_cases hc : it.product = pid
  · simp [hc]
  · simp [hc]

theorem releaseItems_all_nonneg (items : List CartItem) (ps : Products)
    (h : ∀ it ∈ items, 0 ≤ it.quantity) :
    (releaseItems ps items).2 = none ∧
    ∀ pid, (((releaseItems ps items).1) pid).stock_quantity
        = (ps pid).stock_quantity + linesQty items pid ∧
      (((releaseItems ps items).1) pid).price = (ps pid).price := by
  induction items generalizing ps with
  | nil =>
    refine ⟨rfl, fun pid => ⟨?_, rfl⟩⟩
    simp [releaseItems, linesQty]
  | cons it rest ih =>
    have hq : 0 ≤ it.quantity := h it (List.mem_cons_self it rest)
    have hrest : ∀ x ∈ rest, 0 ≤ x.quantity :=
      fun x hx => h x (List.mem_cons_of_mem it hx)
    have hstep : releaseItems ps (it :: rest)
        = releaseItems
            (setProd ps it.product
              { ps it.product with
                  stock_quantity :=
                    (ps it.product).stock_quantity + it.quantity }) rest := by
      conv_lhs => rw [releaseItems]
      rw [add_stock_nonneg_eq _ _ hq]
    rw [hstep]
    obtain ⟨h1, h2⟩ := ih _ hrest
    refine ⟨h1, fun pid => ?_⟩
    obtain ⟨hs, hp⟩ := h2 pid
    rw [hs, hp, linesQty_cons]
    by_cases hc : pid = it.product
    · subst hc
      simp [setProd]
      omega
    · have hc2 : ¬ it.product = pid := fun he => hc he.symm
      simp [setProd, hc, hc2]

/-! ## Theorems about the embedded operations -/

/-- C6: `remove_stock` satisfies the Reserve contract — it checks
`quantity ≤ available`; when the check holds it returns success and
decrements the available quantity by exactly the requested amount (price
untouched); when the check fails it returns failure and leaves the
product completely unchanged. -/
theorem remove_stock_contract (p : Product) (q : ℤ) :
    (q ≤ p.stock_quantity →
      (p.remove_stock q).1 = true ∧
      (p.remove_stock q).2.stock_quantity = p.stock_quantity - q ∧
      (p.remove_stock q).2.price = p.price) ∧
    (p.stock_quantity < q →
      (p.remove_stock q).1 = false ∧ (p.remove_stock q).2 = p) := by
  constructor
  · intro h
    simp [Product.remove_stock, if_pos h]
  · intro h
    simp [Product.remove_stock, if_neg (not_le.mpr h)]

/-- C6 witness: a product with 10 in stock, reserving 3, concretely. -/
theorem remove_stock_contract_witness :
    ((Product.mk 5 10).remove_stock 3).1 = true ∧
    ((Product.mk 5 10).remove_stock 3).2.stock_quantity = 10 - 3 := by
  have h := (remove_stock_contract (Product.mk 5 10) 3).1 (by decide)
  exact ⟨h.1, h.2.1⟩

/-- C10: `remove_stock` accepts a negative quantity — on nonnegative
stock the guard `q ≤ stock_quantity` passes, the call returns `True`, and
the stock INCREASES by `-q`; nothing validates `q ≥ 0`. -/
theorem remove_stock_negative (p : Product) (q : ℤ) (hq : q < 0)
    (hp : 0 ≤ p.stock_quantity) :
    (p.remove_stock q).1 = true ∧
    (p.remove_stock q).2.stock_quantity = p.stock_quantity + (-q) ∧
    p.stock_quantity < (p.remove_stock q).2.stock_quantity := by
  have h : q ≤ p.stock_quantity := le_trans (le_of_lt hq) hp
  refine ⟨?_, ?_, ?_⟩
  · simp [Product.remove_stock, if_pos h]
  · simp [Product.remove_stock, if_pos h, sub_eq_add_neg]
  · simp only [Product.remove_stock, if_pos h]
    omega

/-- C10 witness: stock 4, "removing" −3 yields success and stock 7. -/
theorem remove_stock_negative_witness :
    ((Product.mk 1 4).remove_stock (-3)).1 = true ∧
    ((Product.mk 1 4).remove_stock (-3)).2.stock_quantity = 4 + 3 := by
  have h := remove_stock_negative (Product.mk 1 4) (-3) (by decide) (by decide)
  exact ⟨h.1, h.2.1⟩

/-- C4: `create_order` on a two-line cart whose first line is reservable
and whose second line exceeds its product's stock fails entirely: no
order is produced, the cart is left as it was, and the product world —
hence both products' stock — is unchanged. -/
theorem create_order_all_or_nothing (ps : Products) (a b : CartItem)
    (_ha : a.quantity ≤ (ps a.product).stock_quantity)
    (hb : (ps b.product).stock_quantity < b.quantity) :
    EcommerceSystem.create_order ps [a, b] = (ps, [a, b], none) := by
  have hany : (([a, b] : List CartItem).any fun it =>
      decide ((ps it.product).stock_quantity < it.quantity)) = true := by
    simp [List.any_cons, hb]
  simp [EcommerceSystem.create_order, hany]

/-- C4 witness: product 0 has stock 10, product 1 has stock 2; a cart
asking 3 of product 0 then 5 of product 1 is rejected wholesale. -/
theorem create_order_all_or_nothing_witness :
    EcommerceSystem.create_order
        (fun i => if i = 0 then Product.mk 4 10 else Product.mk 9 2)
        [CartItem.mk 0 3, CartItem.mk 1 5]
      = ((fun i => if i = 0 then Product.mk 4 10 else Product.mk 9 2),
         [CartItem.mk 0 3, CartItem.mk 1 5], none) :=
  create_order_all_or_nothing
    (fun i => if i = 0 then Product.mk 4 10 else Product.mk 9 2)
    (CartItem.mk 0 3) (CartItem.mk 1 5) (by decide) (by decide)

/-- A cancelled order over 3 units of product 0 (Scenario C shape). -/
def cancelledOrder : Order :=
  { Order.new [CartItem.mk 0 3] with status := OrderStatus.CANCELLED }

/-- The product world after that cancel: price 100, stock back to 10. -/
def psAfterCancel : Products := fun _ => Product.mk 100 10

/-- C1: the code has NO status guard in `process_payment` — paying a
CANCELLED order with a valid card returns `True` and moves the order to
CONFIRMED, where the spec demands `InvalidTransition` and a terminal
CANCELLED. -/
theorem pay_after_cancel_confirms :
    ((EcommerceSystem.process_payment psAfterCancel cancelledOrder
        PaymentMethod.CREDIT_CARD
        (PaymentInfo.mk (some "1234567890123456"))).2.1.status
      = OrderStatus.CONFIRMED) ∧
    ((EcommerceSystem.process_payment psAfterCancel cancelledOrder
        PaymentMethod.CREDIT_CARD
        (PaymentInfo.mk (some "1234567890123456"))).2.2 = true) := by
  constructor <;> rfl

/-- A PENDING order over 3 units of product 0, as left by `create_order`
in Scenario A (stock already decremented to 7). -/
def pendingOrder : Order := Order.new [CartItem.mk 0 3]

/-- Product world of Scenario D: price 100, stock 7 (reserved). -/
def psPending : Products := fun _ => Product.mk 100 7

/-- C3: on a declined payment the order does stay PENDING and no stock
changes, but the code writes `PaymentStatus.FAILED` into the
`payment_method` field; the `payment_status` attribute is never set. -/
theorem pay_decline_misassigns_field :
    ((EcommerceSystem.process_payment psPending pendingOrder
        PaymentMethod.CREDIT_CARD (PaymentInfo.mk (some "12"))).1 = psPending) ∧
    ((EcommerceSystem.process_payment psPending pendingOrder
        PaymentMethod.CREDIT_CARD (PaymentInfo.mk (some "12"))).2.1.status
      = OrderStatus.PENDING) ∧
    ((EcommerceSystem.process_payment psPending pendingOrder
        PaymentMethod.CREDIT_CARD (PaymentInfo.mk (some "12"))).2.1.payment_status
      = none) ∧
    ((EcommerceSystem.process_payment psPending pendingOrder
        PaymentMethod.CREDIT_CARD (PaymentInfo.mk (some "12"))).2.1.payment_method
      = some (Sum.inr PaymentStatus.FAILED)) ∧
    ((EcommerceSystem.process_payment psPending pendingOrder
        PaymentMethod.CREDIT_CARD (PaymentInfo.mk (some "12"))).2.2 = false) := by
  refine ⟨rfl, rfl, rfl, rfl, rfl⟩

/-- Initial world of Scenario A: product 0 priced 100, stock 10. -/
def psLive : Products := fun _ => Product.mk 100 10

/-- Scenario A cart: 3 units of product 0. -/
def cartLive : List CartItem := [CartItem.mk 0 3]

/-- C2: order lines are NOT frozen — the order created from `cartLive`
totals 300 while the product price is 100, the price setter then lowers
the price to 1, and the same order now totals 3: `order.total` recomputes
from the live product price, so a later price change rewrites the
historical total. -/
theorem order_total_tracks_live_price :
    (EcommerceSystem.create_order psLive cartLive).2.2
        = some (Order.new cartLive) ∧
    Order.total (EcommerceSystem.create_order psLive cartLive).1
        (Order.new cartLive) = 300 ∧
    Product.set_price ((EcommerceSystem.create_order psLive cartLive).1 0) 1
        = some (Product.mk 1 7) ∧
    Order.total
        (setProd (EcommerceSystem.create_order psLive cartLive).1 0
          (Product.mk 1 7))
        (Order.new cartLive) = 3 ∧
    (3 : ℚ) ≠ 300 := by
  refine ⟨rfl, ?_, rfl, ?_, by norm_num⟩ <;>
    norm_num [Order.total, Order.subtotal, Order.new, CartItem.subtotal,
      EcommerceSystem.create_order, cartLive, psLive, removeItemsStock,
      setProd, Product.remove_stock]

/-- C8: `add_tracking_number` stores the tracking number but then raises
`TypeError` at `OrderStatus()` before the status assignment, so the order
never reaches SHIPPED — its status is whatever it was (CONFIRMED stays
CONFIRMED). -/
theorem ship_stores_tracking_but_raises (o : Order) (t : String) :
    (o.add_tracking_number t).1.tracking_number = some t ∧
    (o.add_tracking_number t).1.status = o.status ∧
    (o.add_tracking_number t).2 = some PyError.typeError := by
  exact ⟨rfl, rfl, rfl⟩

/-- Cart world for the `update_quantity` counterexample: stock 5. -/
def psCartFix : Products := fun _ => Product.mk 10 5

/-- C9 counterexample: setting a line's quantity to 0 does NOT remove the
line — the cart that held one line for product 0 still holds one line for
product 0 afterwards, now with quantity 0, and the call reports success. -/
theorem update_quantity_zero_keeps_line :
    Cart.update_quantity psCartFix [CartItem.mk 0 2] 0 0
        = (some true, [CartItem.mk 0 0]) ∧
    (Cart.update_quantity psCartFix [CartItem.mk 0 2] 0 0).2.length = 1 ∧
    (Cart.update_quantity psCartFix [CartItem.mk 0 2] 0 0).2 ≠ [] := by
  refine ⟨rfl, rfl, by decide⟩

/-- C7: the stock-nonnegativity invariant — a fresh product starts at
stock 0; `add_stock` keeps a nonnegative stock nonnegative whenever it
returns; and both stock-mutating workflow operations (`create_order`'s
reservation loop and `cancel_order`'s release loop) map a world of
nonnegative stocks to a world of nonnegative stocks. -/
theorem stock_nonneg_invariant :
    (∀ pr : ℚ, 0 ≤ (Product.new pr).stock_quantity) ∧
    (∀ (p p2 : Product) (q : ℤ), 0 ≤ p.stock_quantity →
      p.add_stock q = some p2 → 0 ≤ p2.stock_quantity) ∧
    (∀ (ps : Products) (cart : List CartItem),
      (∀ i, 0 ≤ (ps i).stock_quantity) →
      ∀ pid,
        0 ≤ ((EcommerceSystem.create_order ps cart).1 pid).stock_quantity) ∧
    (∀ (ps : Products) (o : Order),
      (∀ i, 0 ≤ (ps i).stock_quantity) →
      ∀ pid, 0 ≤ ((Order.cancel_order ps o).1 pid).stock_quantity) := by
  refine ⟨fun pr => le_refl 0, add_stock_keeps_nonneg, ?_, ?_⟩
  · intro ps cart h pid
    unfold EcommerceSystem.create_order
    split
    · exact h pid
    · split
      · exact h pid
      · exact removeItemsStock_nonneg cart ps h pid
  · intro ps o h pid
    have hr := releaseItems_nonneg o.items ps h pid
    unfold Order.cancel_order
    split
    · split
      next ps2 heq =>
        rw [heq] at hr
        exact hr
      next ps2 e heq =>
        rw [heq] at hr
        exact hr
    · exact h pid

/-- C7 witness: both workflow operations applied to concrete nonnegative
worlds leave the touched product's stock nonnegative. -/
theorem stock_nonneg_invariant_witness :
    0 ≤ ((EcommerceSystem.create_order psLive cartLive).1 0).stock_quantity ∧
    0 ≤ ((Order.cancel_order psPending pendingOrder).1 0).stock_quantity := by
  have h := stock_nonneg_invariant
  exact ⟨h.2.2.1 psLive cartLive (fun _ => (by decide : (0:ℤ) ≤ 10)) 0,
         h.2.2.2 psPending pendingOrder (fun _ => (by decide : (0:ℤ) ≤ 7)) 0⟩

/-- C5: on an order in PENDING or CONFIRMED with nonnegative line
quantities, the first `cancel_order` returns `True`, sets CANCELLED, and
adds each line's recorded quantity back to its product exactly once (the
stock of `pid` grows by precisely the sum of the order's lines for
`pid`); the second `cancel_order` returns `False` and changes neither the
product world nor the order. -/
theorem cancel_idempotent (ps : Products) (o : Order)
    (hst : o.status = OrderStatus.PENDING ∨ o.status = OrderStatus.CONFIRMED)
    (hq : ∀ it ∈ o.items, 0 ≤ it.quantity) :
    (Order.cancel_order ps o).2.2 = Except.ok true ∧
    (Order.cancel_order ps o).2.1.status = OrderStatus.CANCELLED ∧
    (∀ pid, ((Order.cancel_order ps o).1 pid).stock_quantity
        = (ps pid).stock_quantity + linesQty o.items pid) ∧
    Order.cancel_order (Order.cancel_order ps o).1 (Order.cancel_order ps o).2.1
      = ((Order.cancel_order ps o).1, (Order.cancel_order ps o).2.1,
         Except.ok false) := by
  obtain ⟨h1, h2⟩ := releaseItems_all_nonneg o.items ps hq
  have hpair : releaseItems ps o.items = ((releaseItems ps o.items).1, none) := by
    rw [← h1]
  have hco : Order.cancel_order ps o
      = ((releaseItems ps o.items).1,
         { o with status := OrderStatus.CANCELLED }, Except.ok true) := by
    unfold Order.cancel_order
    rw [if_pos hst, hpair]
  rw [hco]
  refine ⟨rfl, rfl, fun pid => (h2 pid).1, ?_⟩
  unfold Order.cancel_order
  rw [if_neg (by simp)]

/-- C5 witness: Scenario C concretely — cancelling the pending 3-unit
order restores product 0 from stock 7 to 10; the verdict is `True`. -/
theorem cancel_idempotent_witness :
    (Order.cancel_order psPending pendingOrder).2.2 = Except.ok true ∧
    ((Order.cancel_order psPending pendingOrder).1 0).stock_quantity = 10 := by
  have h := cancel_idempotent psPending pendingOrder (Or.inl rfl) (by decide)
  refine ⟨h.1, ?_⟩
  rw [h.2.2.1 0]
  decide

/-- C9 amended: on a cart containing a line for the product, a negative
quantity fails and leaves the cart unchanged, a quantity above the
product's stock fails and leaves the cart unchanged, and — given
nonnegative stock — quantity 0 succeeds, keeps the cart's length, and
leaves a line for the product with quantity 0 in the cart (the line is
not removed). -/
theorem update_quantity_spec (ps : Products) (items : List CartItem)
    (pid : ProductId) (v : ℤ) (hmem : ∃ it ∈ items, it.product = pid) :
    (v < 0 → Cart.update_quantity ps items pid v = (some false, items)) ∧
    ((ps pid).stock_quantity < v →
      Cart.update_quantity ps items pid v = (some false, items)) ∧
    (0 ≤ (ps pid).stock_quantity →
      (Cart.update_quantity ps items pid 0).1 = some true ∧
      (Cart.update_quantity ps items pid 0).2.length = items.length ∧
      ∃ it2 ∈ (Cart.update_quantity ps items pid 0).2,
        it2.product = pid ∧ it2.quantity = 0) := by
  induction items with
  | nil => simp at hmem
  | cons it rest ih =>
    by_cases hc : it.product = pid
    · refine ⟨?_, ?_, ?_⟩
      · intro hv
        unfold Cart.update_quantity
        rw [if_pos hc]
        unfold CartItem.set_quantity
        rw [if_pos hv]
      · intro hv
        unfold Cart.update_quantity
        rw [if_pos hc]
        unfold CartItem.set_quantity
        by_cases hv0 : v < 0
        · rw [if_pos hv0]
        · rw [if_neg hv0, if_pos (by rw [hc]; exact hv)]
      · intro hst
        have hset : it.set_quantity ps 0
            = Except.ok { it with quantity := 0 } := by
          unfold CartItem.set_quantity
          rw [if_neg (by omega), if_neg (by rw [hc]; omega)]
        unfold Cart.update_quantity
        rw [if_pos hc, hset]
        exact ⟨rfl, rfl,
          ⟨{ it with quantity := 0 },
            List.mem_cons_self _ _, hc, rfl⟩⟩
    · have hmem2 : ∃ x ∈ rest, x.product = pid := by
        rcases hmem with ⟨x, hx, hxp⟩
        rcases List.mem_cons.mp hx with h | h
        · subst h
          exact absurd hxp hc
        · exact ⟨x, h, hxp⟩
      obtain ⟨ih1, ih2, ih3⟩ := ih hmem2
      have key : ∀ q : ℤ, Cart.update_quantity ps (it :: rest) pid q
          = ((Cart.update_quantity ps rest pid q).1,
             it :: (Cart.update_quantity ps rest pid q).2) := by
        intro q
        conv_lhs => rw [Cart.update_quantity]
        rw [if_neg hc]
      refine ⟨?_, ?_, ?_⟩
      · intro hv
        rw [key v, ih1 hv]
      · intro hv
        rw [key v, ih2 hv]
      · intro hst
        obtain ⟨k1, k2, x, hxmem, hxp, hxq⟩ := ih3 hst
        rw [key 0]
        exact ⟨k1, by simp [k2],
          ⟨x, List.mem_cons_of_mem it hxmem, hxp, hxq⟩⟩

/-- C9 witness: on the one-line cart for product 0 (stock 5), a negative
requested quantity is rejected and the cart is unchanged. -/
theorem update_quantity_spec_witness :
    Cart.update_quantity psCartFix [CartItem.mk 0 2] 0 (-1)
      = (some false, [CartItem.mk 0 2]) :=
  (update_quantity_spec psCartFix [CartItem.mk 0 2] 0 (-1)
    (by decide)).1 (by decide)

end Ecomm
